import Mathlib

/-!
Verification of the mapping-construction and mapping-application logic of
py4cytoscape's style_mappings module, shallowly embedded in Lean.

The embedding follows src/py4cytoscape/style_mappings.py.  The remote
Cytoscape service (the spec's "Schema Oracle" and style store) is modelled as
explicit data: an environment carrying the visual-property name set and the
backing tables, and a style store carrying each style's current mappings.
Remote writes are recorded as explicit `Write` values; the store's reaction to
them is modelled from the spec's wire contract.  Column values and property
values are type parameters, since the Python lists are heterogeneous.
-/

namespace Py4Cytoscape

/-- Python's `\s` whitespace class (ASCII part), as used by `re.sub('\s+', '_', ...)`. -/
def isPySpace (c : Char) : Bool :=
  c = ' ' || c = '\t' || c = '\n' || c = '\r' || c = '\x0b' || c = '\x0c'

/-- `re.sub('\s+', '_', s)` on a character list: each maximal whitespace run
becomes a single underscore. -/
def collapseWs : List Char → List Char
  | [] => []
  | [c] => if isPySpace c then ['_'] else [c]
  | c1 :: c2 :: cs =>
    if isPySpace c1 && isPySpace c2 then collapseWs (c2 :: cs)
    else (if isPySpace c1 then '_' else c1) :: collapseWs (c2 :: cs)

/-- The `MAPPING_TYPES` shortcode table of `map_visual_property`. -/
def MAPPING_TYPES : List (String × String) :=
  [("c", "continuous"), ("d", "discrete"), ("p", "passthrough")]

/-- The `PROPERTY_NAMES` alias table of `map_visual_property`. -/
def PROPERTY_NAMES : List (String × String) :=
  [("EDGE_COLOR", "EDGE_UNSELECTED_PAINT"), ("EDGE_THICKNESS", "EDGE_WIDTH"),
   ("NODE_BORDER_COLOR", "NODE_BORDER_PAINT"), ("NODE_BORDER_LINE_TYPE", "NODE_BORDER_STROKE")]

/-- `MAPPING_TYPES[mapping_type] if mapping_type in MAPPING_TYPES else mapping_type`. -/
def mappingTypeName (mappingType : String) : String :=
  match MAPPING_TYPES.lookup mappingType with
  | some n => n
  | none => mappingType

/-- `re.sub('\s+', '_', visual_prop).upper()` followed by the alias-table lookup. -/
def normalizeVisualProp (visualProp : String) : String :=
  let n := String.mk ((collapseWs visualProp.data).map Char.toUpper)
  match PROPERTY_NAMES.lookup n with
  | some canonical => canonical
  | none => n

/-- `visual_prop_name.split('_')[0].lower()`: the text before the first
underscore, lowercased. -/
def propCategory (visualPropName : String) : String :=
  String.mk ((visualPropName.data.takeWhile (fun c => c ≠ '_')).map Char.toLower)

/-- One column record of a CyREST `columns` response: `{name, type}`. -/
structure Column where
  name : String
  type : String
deriving DecidableEq, Repr

/-- The remote schema as seen by the client: the visual-property name set
(`styles.get_visual_property_names`) and, per table name (`defaultnode`,
`defaultedge`, `defaultnetwork`), the column list reported by
`networks/{suid}/tables/{table}/columns`, already scoped to the resolved
network. -/
structure Env where
  visualPropertyNames : List String
  tableColumns : String → List Column

/-- The column-scan loop of `map_visual_property`: the `type` of the first
column whose `name` matches, else `None`. -/
def lookupColumnType (cols : List Column) (tableColumn : String) : Option String :=
  match cols.find? (fun col => col.name = tableColumn) with
  | some col => some col.type
  | none => none

/-- Errors raised (or crashes hit) by the embedded functions. -/
inductive CyErr where
  | unknownVisualProperty (name : String)
  | unknownColumn (column table : String)
  | mismatchedLengths
  | indexError
  | unsupportedMapping (kind visualPropName : String)
  | tableColumnMissing
deriving DecidableEq, Repr

/-- A continuous-mapping waypoint `{value, lesser, equal, greater}`. -/
structure Waypoint (κ ρ : Type) where
  value : κ
  lesser : ρ
  equal : ρ
  greater : ρ
deriving DecidableEq, Repr

/-- A discrete-mapping entry `{key, value}`. -/
structure KeyValue (κ ρ : Type) where
  key : κ
  value : ρ
deriving DecidableEq, Repr

/-- The mapping document built by `map_visual_property`; `map` and `points`
are the kind-dependent cargo keys (absent unless discrete / continuous). -/
structure VisualPropMap (κ ρ : Type) where
  mappingType : String
  mappingColumn : String
  mappingColumnType : String
  visualProperty : String
  map : Option (List (KeyValue κ ρ))
  points : Option (List (Waypoint κ ρ))
deriving DecidableEq, Repr

/-- `points[0]['lesser'] = pv`: replace the head waypoint's `lesser`. -/
def modifyHeadLesser {κ ρ : Type} (pv : ρ) : List (Waypoint κ ρ) → List (Waypoint κ ρ)
  | [] => []
  | w :: ws => { w with lesser := pv } :: ws

/-- `points[col_val_count - 1]['greater'] = pv` (for a list of length
`col_val_count`): replace the last waypoint's `greater`. -/
def setLastGreater {κ ρ : Type} (pv : ρ) : List (Waypoint κ ρ) → List (Waypoint κ ρ)
  | [] => []
  | [w] => [{ w with greater := pv }]
  | w :: w2 :: ws => w :: setLastGreater pv (w2 :: ws)

/-- `map_visual_property(visual_prop, table_column, mapping_type,
table_column_values, visual_prop_values)`.  Name and column validation come
first; the cargo depends on the resolved mapping-type name.  A raised
`CyError` or Python crash is an `Except.error`. -/
def map_visual_property {κ ρ : Type} (env : Env) (visualProp tableColumn mappingType : String)
    (tableColumnValues : List κ) (visualPropValues : List ρ) :
    Except CyErr (VisualPropMap κ ρ) :=
  let mappingTypeN := mappingTypeName mappingType
  let visualPropName := normalizeVisualProp visualProp
  if visualPropName ∉ env.visualPropertyNames then
    Except.error (CyErr.unknownVisualProperty visualPropName)
  else
    let table := "default" ++ propCategory visualPropName
    match lookupColumnType (env.tableColumns table) tableColumn with
    | none => Except.error (CyErr.unknownColumn tableColumn table)
    | some tableColumnType =>
      let base : VisualPropMap κ ρ :=
        { mappingType := mappingTypeN, mappingColumn := tableColumn,
          mappingColumnType := tableColumnType, visualProperty := visualPropName,
          map := none, points := none }
      if mappingTypeN = "discrete" then
        Except.ok { base with
          map := some (List.zipWith (fun cv pv => { key := cv, value := pv })
            tableColumnValues visualPropValues) }
      else if mappingTypeN = "continuous" then
        if (visualPropValues.length : Int) - (tableColumnValues.length : Int) = 2 then
          match visualPropValues with
          | [] => Except.error CyErr.indexError
          | pv0 :: pvRest =>
            let points := List.zipWith
              (fun cv pv => ({ value := cv, lesser := pv, equal := pv, greater := pv } : Waypoint κ ρ))
              tableColumnValues pvRest
            match points with
            | [] =>
              -- zero column values: `points[0]` raises IndexError in the source
              Except.error CyErr.indexError
            | q0 :: qRest =>
              let corrected := setLastGreater (pvRest.getLastD pv0) (modifyHeadLesser pv0 (q0 :: qRest))
              Except.ok { base with points := some corrected }
        else if (visualPropValues.length : Int) - (tableColumnValues.length : Int) = 0 then
          Except.ok { base with points := some (List.zipWith
            (fun cv pv => ({ value := cv, lesser := pv, equal := pv, greater := pv } : Waypoint κ ρ))
            tableColumnValues visualPropValues) }
        else
          Except.error CyErr.mismatchedLengths
      else
        Except.ok base

instance {ε α : Type} [DecidableEq ε] [DecidableEq α] : DecidableEq (Except ε α)
  | Except.error a, Except.error b =>
    if h : a = b then isTrue (by rw [h]) else isFalse (by intro hh; cases hh; exact h rfl)
  | Except.error _, Except.ok _ => isFalse (by intro h; cases h)
  | Except.ok _, Except.error _ => isFalse (by intro h; cases h)
  | Except.ok a, Except.ok b =>
    if h : a = b then isTrue (by rw [h]) else isFalse (by intro hh; cases hh; exact h rfl)

/-- A concrete schema used by the witnesses and counterexamples. -/
def envA : Env :=
  { visualPropertyNames :=
      ["NODE_SIZE", "NODE_FILL_COLOR", "NODE_SHAPE", "NODE_TRANSPARENCY",
       "NODE_BORDER_TRANSPARENCY", "NODE_LABEL_TRANSPARENCY", "EDGE_UNSELECTED_PAINT"],
    tableColumns := fun t =>
      if t = "defaultnode" then
        [{ name := "score", type := "Double" }, { name := "degree", type := "Integer" }]
      else [] }

example :
    map_visual_property envA "node fill color" "score" "c"
      ([1, 2] : List Int) ["#FF0000", "#00FF00"] =
    Except.ok
      { mappingType := "continuous", mappingColumn := "score",
        mappingColumnType := "Double", visualProperty := "NODE_FILL_COLOR",
        map := none,
        points := some
          [{ value := 1, lesser := "#FF0000", equal := "#FF0000", greater := "#FF0000" },
           { value := 2, lesser := "#00FF00", equal := "#00FF00", greater := "#00FF00" }] } := by
  decide

example :
    map_visual_property envA "node shape" "degree" "d"
      ([1, 2] : List Int) ["ellipse", "rectangle"] =
    Except.ok
      { mappingType := "discrete", mappingColumn := "degree",
        mappingColumnType := "Integer", visualProperty := "NODE_SHAPE",
        map := some [{ key := 1, value := "ellipse" }, { key := 2, value := "rectangle" }],
        points := none } := by
  decide

example :
    map_visual_property envA "node size" "score" "c"
      ([10] : List Int) ["#A", "#B", "#C"] =
    Except.ok
      { mappingType := "continuous", mappingColumn := "score",
        mappingColumnType := "Double", visualProperty := "NODE_SIZE",
        map := none,
        points := some [{ value := 10, lesser := "#A", equal := "#B", greater := "#C" }] } := by
  decide

/-- The remote style store: each style's current list of mapping documents,
as returned by `GET styles/{style}/mappings`. -/
structure StyleStore (κ ρ : Type) where
  mappings : String → List (VisualPropMap κ ρ)

/-- A remote write issued by the client: `PUT styles/{s}/mappings/{p}`,
`POST styles/{s}/mappings`, or `DELETE styles/{s}/mappings/{p}`. -/
inductive Write (κ ρ : Type) where
  | put (styleName visualPropName : String) (body : List (VisualPropMap κ ρ))
  | post (styleName : String) (body : List (VisualPropMap κ ρ))
  | del (styleName visualPropName : String)
deriving DecidableEq, Repr

/-- `update_style_mapping(style_name, mapping)`: read the style's current
mapped properties, then PUT (replace) when the document's property is already
mapped, else POST (create).  The returned string is the remote acknowledgment
(the empty success marker); the write issued is recorded alongside it. -/
def update_style_mapping {κ ρ : Type} [DecidableEq κ] [DecidableEq ρ]
    (store : StyleStore κ ρ) (styleName : String) (mapping : VisualPropMap κ ρ) :
    String × List (Write κ ρ) :=
  let visualPropName := mapping.visualProperty
  let vpList := (store.mappings styleName).map (fun prop => prop.visualProperty)
  if visualPropName ∈ vpList then
    ("", [Write.put styleName visualPropName [mapping]])
  else
    ("", [Write.post styleName [mapping]])

/-- Modelled from the spec: the remote style store's reaction to the mapping
write endpoints (spec section 6) — POST appends the body's documents, PUT
replaces the named property's mapping with the body, DELETE removes it.  The
server is an external collaborator, not part of this repository's source. -/
def applyWrite {κ ρ : Type} (store : StyleStore κ ρ) : Write κ ρ → StyleStore κ ρ
  | Write.put s p body =>
    { mappings := fun t =>
        if t = s then ((store.mappings t).filter (fun m => m.visualProperty ≠ p)) ++ body
        else store.mappings t }
  | Write.post s body =>
    { mappings := fun t => if t = s then store.mappings t ++ body else store.mappings t }
  | Write.del s p =>
    { mappings := fun t =>
        if t = s then (store.mappings t).filter (fun m => m.visualProperty ≠ p)
        else store.mappings t }

/-- Apply a sequence of writes to the store, in order. -/
def applyWrites {κ ρ : Type} (store : StyleStore κ ρ) (ws : List (Write κ ρ)) : StyleStore κ ρ :=
  ws.foldl applyWrite store

/-- Outcome of `delete_style_mapping`: its return value, the delete writes it
issued, and the store after the remote processed them. -/
structure DeleteOut (κ ρ : Type) where
  result : Option String
  writes : List (Write κ ρ)
  store1 : StyleStore κ ρ

/-- `delete_style_mapping(style_name, visual_prop)`: check existence first;
DELETE and return the acknowledgment when present, otherwise return `None`
without issuing any write. -/
def delete_style_mapping {κ ρ : Type} (store : StyleStore κ ρ) (styleName visualProp : String) :
    DeleteOut κ ρ :=
  let vpList := (store.mappings styleName).map (fun prop => prop.visualProperty)
  if visualProp ∈ vpList then
    { result := some "", writes := [Write.del styleName visualProp],
      store1 := applyWrite store (Write.del styleName visualProp) }
  else
    { result := none, writes := [], store1 := store }

/-- `table_column_exists(table_column, 'node')`: does the node table report a
column of this name?  (Backed by the same `defaultnode` column list that
`map_visual_property` consults.) -/
def table_column_exists (env : Env) (tableColumn : String) : Bool :=
  (env.tableColumns "defaultnode").any (fun col => col.name = tableColumn)

/-- Successful outcome of `_update_style_mapping`: the value it returns
(`None` when the mapping type is unrecognized) and the writes issued. -/
structure USMOut (κ : Type) where
  res : Option String
  writes : List (Write κ String)
deriving DecidableEq, Repr

/-- `_update_style_mapping(visual_prop_name, table_column, table_column_values,
range_map, mapping_type, style_name, ...)`: coerce the range values to
strings, dispatch on the mapping type (continuous / discrete / passthrough
families), build via `map_visual_property`, then write via
`update_style_mapping`.  An unrecognized mapping type returns `None` and
issues nothing; an unsupported-for-this-property kind raises. -/
def _update_style_mapping {κ ρ : Type} [DecidableEq κ] [ToString ρ] (env : Env)
    (store : StyleStore κ String) (visualPropName tableColumn : String)
    (tableColumnValues : List κ) (rangeMap : List ρ) (mappingType styleName : String)
    (supportedMappings : List String) :
    Except CyErr (USMOut κ) :=
  let rangeMapS : List String := rangeMap.map (fun x => toString x)
  if mappingType ∈ ["continuous", "c", "interpolate"] then
    if "c" ∈ supportedMappings then
      match map_visual_property env visualPropName tableColumn "c" tableColumnValues rangeMapS with
      | Except.error e => Except.error e
      | Except.ok mvp =>
        let ack := update_style_mapping store styleName mvp
        Except.ok { res := some ack.1, writes := ack.2 }
    else
      Except.error (CyErr.unsupportedMapping "continuous" visualPropName)
  else if mappingType ∈ ["discrete", "d", "lookup"] then
    if "d" ∈ supportedMappings then
      match map_visual_property env visualPropName tableColumn "d" tableColumnValues rangeMapS with
      | Except.error e => Except.error e
      | Except.ok mvp =>
        let ack := update_style_mapping store styleName mvp
        Except.ok { res := some ack.1, writes := ack.2 }
    else
      Except.error (CyErr.unsupportedMapping "discrete" visualPropName)
  else if mappingType ∈ ["passthrough", "p"] then
    if "p" ∈ supportedMappings then
      match map_visual_property env visualPropName tableColumn "p" ([] : List κ) ([] : List String) with
      | Except.error e => Except.error e
      | Except.ok mvp =>
        let ack := update_style_mapping store styleName mvp
        Except.ok { res := some ack.1, writes := ack.2 }
    else
      Except.error (CyErr.unsupportedMapping "passthrough" visualPropName)
  else
    Except.ok { res := none, writes := [] }

/-- Observable outcome of an opacity façade call: its return value (or raised
error), the visual properties for which `_update_style_mapping` was attempted
(hence for which the Builder could run), the mapping writes issued, and the
style-wide default values pushed via `set_visual_property_default`. -/
structure FacadeOut (κ : Type) where
  result : Except CyErr (Option String)
  attempts : List String
  writes : List (Write κ String)
  defaultWrites : List (String × String)
deriving DecidableEq, Repr

/-- `set_node_border_opacity_mapping(...)`: column-existence check, opacity
range check, optional default-opacity range check and default push, then one
`_update_style_mapping` on NODE_BORDER_TRANSPARENCY. -/
def set_node_border_opacity_mapping {κ : Type} [DecidableEq κ] (env : Env)
    (store : StyleStore κ String) (tableColumn : String) (tableColumnValues : List κ)
    (opacities : List Int) (mappingType : String) (defaultOpacity : Option Int)
    (styleName : String) : FacadeOut κ :=
  if ¬ table_column_exists env tableColumn then
    { result := Except.error CyErr.tableColumnMissing, attempts := [], writes := [],
      defaultWrites := [] }
  else if opacities.any (fun o => decide (o < 0) || decide (255 < o)) then
    { result := Except.ok none, attempts := [], writes := [], defaultWrites := [] }
  else
    let dwRes : Option (List (String × String)) :=
      match defaultOpacity with
      | some d =>
        if decide (d < 0) || decide (255 < d) then none
        else some [("NODE_BORDER_TRANSPARENCY", toString d)]
      | none => some []
    match dwRes with
    | none => { result := Except.ok none, attempts := [], writes := [], defaultWrites := [] }
    | some dw =>
      match _update_style_mapping env store "NODE_BORDER_TRANSPARENCY" tableColumn
          tableColumnValues opacities mappingType styleName ["c", "d", "p"] with
      | Except.error e =>
        { result := Except.error e, attempts := ["NODE_BORDER_TRANSPARENCY"], writes := [],
          defaultWrites := dw }
      | Except.ok u =>
        { result := Except.ok u.res, attempts := ["NODE_BORDER_TRANSPARENCY"],
          writes := u.writes, defaultWrites := dw }

/-- The default-opacity handling of `set_node_combo_opacity_mapping`: `none`
when a supplied default is out of range (the façade then returns `None`),
otherwise the three style-wide default writes (or no write when no default
was supplied). -/
def comboDefaultWrites (defaultOpacity : Option Int) : Option (List (String × String)) :=
  match defaultOpacity with
  | some d =>
    if decide (d < 0) || decide (255 < d) then none
    else some [("NODE_TRANSPARENCY", toString d), ("NODE_BORDER_TRANSPARENCY", toString d),
               ("NODE_LABEL_TRANSPARENCY", toString d)]
  | none => some []

/-- `set_node_combo_opacity_mapping(...)`: column-existence check, opacity
range check, optional default handling, then `_update_style_mapping` on
NODE_TRANSPARENCY, NODE_BORDER_TRANSPARENCY and NODE_LABEL_TRANSPARENCY in
sequence; a raised error aborts the sequence (Python exception propagation),
and only the last sub-operation's result is returned. -/
def set_node_combo_opacity_mapping {κ : Type} [DecidableEq κ] (env : Env)
    (store : StyleStore κ String) (tableColumn : String) (tableColumnValues : List κ)
    (opacities : List Int) (mappingType : String) (defaultOpacity : Option Int)
    (styleName : String) : FacadeOut κ :=
  if ¬ table_column_exists env tableColumn then
    { result := Except.error CyErr.tableColumnMissing, attempts := [], writes := [],
      defaultWrites := [] }
  else if opacities.any (fun o => decide (o < 0) || decide (255 < o)) then
    { result := Except.ok none, attempts := [], writes := [], defaultWrites := [] }
  else
    match comboDefaultWrites defaultOpacity with
    | none => { result := Except.ok none, attempts := [], writes := [], defaultWrites := [] }
    | some dw =>
      match _update_style_mapping env store "NODE_TRANSPARENCY" tableColumn
          tableColumnValues opacities mappingType styleName ["c", "d", "p"] with
      | Except.error e =>
        { result := Except.error e, attempts := ["NODE_TRANSPARENCY"], writes := [],
          defaultWrites := dw }
      | Except.ok u1 =>
        match _update_style_mapping env (applyWrites store u1.writes) "NODE_BORDER_TRANSPARENCY"
            tableColumn tableColumnValues opacities mappingType styleName ["c", "d", "p"] with
        | Except.error e =>
          { result := Except.error e,
            attempts := ["NODE_TRANSPARENCY", "NODE_BORDER_TRANSPARENCY"],
            writes := u1.writes, defaultWrites := dw }
        | Except.ok u2 =>
          match _update_style_mapping env (applyWrites (applyWrites store u1.writes) u2.writes)
              "NODE_LABEL_TRANSPARENCY" tableColumn tableColumnValues opacities mappingType
              styleName ["c", "d", "p"] with
          | Except.error e =>
            { result := Except.error e,
              attempts := ["NODE_TRANSPARENCY", "NODE_BORDER_TRANSPARENCY",
                           "NODE_LABEL_TRANSPARENCY"],
              writes := u1.writes ++ u2.writes, defaultWrites := dw }
          | Except.ok u3 =>
            { result := Except.ok u3.res,
              attempts := ["NODE_TRANSPARENCY", "NODE_BORDER_TRANSPARENCY",
                           "NODE_LABEL_TRANSPARENCY"],
              writes := u1.writes ++ u2.writes ++ u3.writes, defaultWrites := dw }

/-- An empty style store for the witnesses and counterexamples. -/
def storeEmpty : StyleStore Int String :=
  { mappings := fun _ => [] }

/-! ## Helper lemmas about list indexing -/

theorem zipWith_getElem?_of_lt {α β γ : Type} (f : α → β → γ) (as : List α) (bs : List β)
    (i : Nat) (h1 : i < as.length) (h2 : i < bs.length) :
    ∃ a b, as[i]? = some a ∧ bs[i]? = some b ∧ (List.zipWith f as bs)[i]? = some (f a b) := by
  induction as generalizing bs i with
  | nil => simp at h1
  | cons a as ih =>
    cases bs with
    | nil => simp at h2
    | cons b bs =>
      cases i with
      | zero => exact ⟨a, b, by simp, by simp, by simp⟩
      | succ i =>
        simp only [List.zipWith_cons_cons, List.getElem?_cons_succ]
        exact ih bs i (by simpa using h1) (by simpa using h2)

theorem length_modifyHeadLesser {κ ρ : Type} (pv : ρ) (l : List (Waypoint κ ρ)) :
    (modifyHeadLesser pv l).length = l.length := by
  cases l <;> simp [modifyHeadLesser]

theorem modifyHeadLesser_getElem?_succ {κ ρ : Type} (pv : ρ) (l : List (Waypoint κ ρ)) (i : Nat) :
    (modifyHeadLesser pv l)[i + 1]? = l[i + 1]? := by
  cases l <;> simp [modifyHeadLesser]

theorem length_setLastGreater {κ ρ : Type} (g : ρ) :
    ∀ (l : List (Waypoint κ ρ)), (setLastGreater g l).length = l.length
  | [] => rfl
  | [_] => rfl
  | w :: w2 :: ws => by
    simp only [setLastGreater, List.length_cons, length_setLastGreater g (w2 :: ws)]

theorem setLastGreater_getElem?_lt {κ ρ : Type} (g : ρ) :
    ∀ (l : List (Waypoint κ ρ)) (i : Nat), i + 1 < l.length → (setLastGreater g l)[i]? = l[i]?
  | [], i, h => by simp at h
  | [_], i, h => by simp at h
  | _ :: w2 :: _, 0, _ => by simp [setLastGreater]
  | w :: w2 :: ws, i + 1, h => by
    simp only [setLastGreater, List.getElem?_cons_succ]
    exact setLastGreater_getElem?_lt g (w2 :: ws) i (by simpa using h)

theorem setLastGreater_getElem?_last {κ ρ : Type} (g : ρ) :
    ∀ (l : List (Waypoint κ ρ)), l ≠ [] →
      (setLastGreater g l)[l.length - 1]? =
        (l[l.length - 1]?).map (fun w => { w with greater := g })
  | [], h => absurd rfl h
  | [_], _ => rfl
  | w :: w2 :: ws, _ => by
    have ih := setLastGreater_getElem?_last g (w2 :: ws) (by simp)
    simp only [setLastGreater, List.length_cons, Nat.add_sub_cancel] at ih ⊢
    simpa using ih

theorem getLastD_getElem? {α : Type} (d : α) :
    ∀ (l : List α), l ≠ [] → l[l.length - 1]? = some (l.getLastD d)
  | [], h => absurd rfl h
  | [a], _ => rfl
  | a :: b :: l, _ => by
    have ih := getLastD_getElem? d (b :: l) (by simp)
    simp only [List.length_cons, Nat.add_sub_cancel] at ih ⊢
    simpa using ih

/-! ## Claim theorems -/

/-- C1: for every continuous-kind build in which the property-values list has
the same length as the column-values list (and the schema checks pass), the
document's points payload has exactly one waypoint per column value, in input
order, and each waypoint's lesser, equal and greater fields all equal the
property value paired with that column value. -/
theorem C1_continuous_equal_lengths {κ ρ : Type} (env : Env) (vp tc mt : String)
    (cvs : List κ) (pvs : List ρ) (t : String)
    (hmt : mappingTypeName mt = "continuous")
    (hlen : pvs.length = cvs.length)
    (hvp : normalizeVisualProp vp ∈ env.visualPropertyNames)
    (hcol : lookupColumnType
      (env.tableColumns ("default" ++ propCategory (normalizeVisualProp vp))) tc = some t) :
    ∃ doc, map_visual_property env vp tc mt cvs pvs = Except.ok doc ∧
      ∃ pts, doc.points = some pts ∧ pts.length = cvs.length ∧
        ∀ i, i < cvs.length →
          ∃ cv pv, cvs[i]? = some cv ∧ pvs[i]? = some pv ∧
            pts[i]? = some { value := cv, lesser := pv, equal := pv, greater := pv } := by
  have hnotin : ¬ normalizeVisualProp vp ∉ env.visualPropertyNames := by simpa using hvp
  have hd2 : ¬ ((pvs.length : Int) - (cvs.length : Int) = 2) := by omega
  have hd0 : (pvs.length : Int) - (cvs.length : Int) = 0 := by omega
  simp only [map_visual_property]
  rw [if_neg hnotin, hcol]
  simp only [hmt, if_true]
  rw [if_neg hd2, if_pos hd0]
  refine ⟨_, rfl, _, rfl, ?_, ?_⟩
  · simp [List.length_zipWith, hlen]
  · intro i hi
    obtain ⟨cv, pv, h1, h2, h3⟩ := zipWith_getElem?_of_lt
      (fun cv pv => ({ value := cv, lesser := pv, equal := pv, greater := pv } : Waypoint κ ρ))
      cvs pvs i hi (by omega)
    exact ⟨cv, pv, h1, h2, h3⟩

/-- Witness for C1 at a concrete input. -/
theorem C1_continuous_equal_lengths_witness :
    mappingTypeName "c" = "continuous" ∧
    ∃ doc, map_visual_property envA "node fill color" "score" "c" ([1, 2] : List Int)
        ["#FF0000", "#00FF00"] = Except.ok doc ∧
      ∃ pts, doc.points = some pts ∧ pts.length = ([1, 2] : List Int).length ∧
        ∀ i, i < ([1, 2] : List Int).length →
          ∃ cv pv, ([1, 2] : List Int)[i]? = some cv ∧
            (["#FF0000", "#00FF00"] : List String)[i]? = some pv ∧
            pts[i]? = some { value := cv, lesser := pv, equal := pv, greater := pv } :=
  ⟨rfl, C1_continuous_equal_lengths envA "node fill color" "score" "c" [1, 2]
    ["#FF0000", "#00FF00"] "Double" rfl rfl (by decide) (by decide)⟩

/-- C2 counterexample: a continuous build whose property-values list is
exactly two longer than the (empty) column-values list does not produce a
points payload at all — `points[0]` raises IndexError in the source — so the
claimed resulting document does not exist at this input. -/
theorem C2_empty_columns_counterexample :
    map_visual_property envA "node size" "score" "c" ([] : List Int) ["#A", "#B"] =
      Except.error CyErr.indexError := by
  decide

/-- Equation for the delta-two continuous branch, given the zipped interior
point list in cons form. -/
theorem map_visual_property_plusTwo_eq {κ ρ : Type} (env : Env) (vp tc mt : String)
    (cvs : List κ) (pv0 : ρ) (pvRest : List ρ) (t : String)
    (q0 : Waypoint κ ρ) (qRest : List (Waypoint κ ρ))
    (hmt : mappingTypeName mt = "continuous")
    (hd2 : (((pv0 :: pvRest).length : Int)) - (cvs.length : Int) = 2)
    (hvp : normalizeVisualProp vp ∈ env.visualPropertyNames)
    (hcol : lookupColumnType
      (env.tableColumns ("default" ++ propCategory (normalizeVisualProp vp))) tc = some t)
    (hzs : List.zipWith
      (fun cv pv => ({ value := cv, lesser := pv, equal := pv, greater := pv } : Waypoint κ ρ))
      cvs pvRest = q0 :: qRest) :
    map_visual_property env vp tc mt cvs (pv0 :: pvRest) =
      Except.ok
        { mappingType := "continuous", mappingColumn := tc, mappingColumnType := t,
          visualProperty := normalizeVisualProp vp, map := none,
          points := some (setLastGreater (pvRest.getLastD pv0)
            (modifyHeadLesser pv0 (q0 :: qRest))) } := by
  have hnotin : ¬ normalizeVisualProp vp ∉ env.visualPropertyNames := by simpa using hvp
  simp only [map_visual_property]
  rw [if_neg hnotin, hcol]
  simp only [hmt, reduceIte]
  rw [if_pos hd2, hzs]
  rfl

/-- C2 (amended): for every continuous-kind build in which the property-values
list is exactly two longer than the column-values list, the column-values list
is nonempty, and the schema checks pass, the points payload has one waypoint
per column value in input order; the first waypoint's lesser equals the first
property value, the last waypoint's greater equals the last property value,
and every other lesser / equal / greater slot equals the interior property
value paired 1:1 with that waypoint's column value. -/
theorem C2_continuous_plus_two {κ ρ : Type} (env : Env) (vp tc mt : String)
    (cvs : List κ) (pvs : List ρ) (t : String)
    (hmt : mappingTypeName mt = "continuous")
    (hlen : pvs.length = cvs.length + 2)
    (hne : cvs ≠ [])
    (hvp : normalizeVisualProp vp ∈ env.visualPropertyNames)
    (hcol : lookupColumnType
      (env.tableColumns ("default" ++ propCategory (normalizeVisualProp vp))) tc = some t) :
    ∃ doc, map_visual_property env vp tc mt cvs pvs = Except.ok doc ∧
      ∃ pts, doc.points = some pts ∧ pts.length = cvs.length ∧
        (∀ i, i < cvs.length →
          ∃ cv pv, cvs[i]? = some cv ∧ pvs[i + 1]? = some pv ∧
            ∃ w, pts[i]? = some w ∧ w.value = cv ∧ w.equal = pv ∧
              (0 < i → w.lesser = pv) ∧ (i + 1 < cvs.length → w.greater = pv)) ∧
        (∃ pv0 w0, pvs[0]? = some pv0 ∧ pts[0]? = some w0 ∧ w0.lesser = pv0) ∧
        (∃ pvL wL, pvs[pvs.length - 1]? = some pvL ∧ pts[cvs.length - 1]? = some wL ∧
          wL.greater = pvL) := by
  cases pvs with
  | nil => simp at hlen
  | cons pv0 pvRest =>
    have hlen1 : pvRest.length = cvs.length + 1 := by simpa using hlen
    have hd2 : (((pv0 :: pvRest).length : Int)) - (cvs.length : Int) = 2 := by
      rw [List.length_cons]; omega
    have hnpos : 0 < cvs.length := by
      cases cvs with
      | nil => exact absurd rfl hne
      | cons c cs => simp
    cases hzs : List.zipWith
        (fun cv pv => ({ value := cv, lesser := pv, equal := pv, greater := pv } : Waypoint κ ρ))
        cvs pvRest with
    | nil =>
      have h0 : min cvs.length pvRest.length = 0 := by
        have h := congrArg List.length hzs
        simpa [List.length_zipWith] using h
      omega
    | cons q0 qRest =>
      have heq := map_visual_property_plusTwo_eq env vp tc mt cvs pv0 pvRest t q0 qRest
        hmt hd2 hvp hcol hzs
      have hzlen : (q0 :: qRest).length = cvs.length := by
        rw [← hzs, List.length_zipWith]; omega
      have hmodlen : (modifyHeadLesser pv0 (q0 :: qRest)).length = cvs.length := by
        rw [length_modifyHeadLesser, hzlen]
      have hmodne : modifyHeadLesser pv0 (q0 :: qRest) ≠ [] := by
        simp [modifyHeadLesser]
      refine ⟨_, heq, _, rfl, ?_, ?_, ?_, ?_⟩
      · rw [length_setLastGreater, hmodlen]
      · -- per-waypoint characterization
        intro i hi
        obtain ⟨cv, pv, hcv, hpv, hz⟩ := zipWith_getElem?_of_lt
          (fun cv pv => ({ value := cv, lesser := pv, equal := pv, greater := pv } : Waypoint κ ρ))
          cvs pvRest i hi (by omega)
        rw [hzs] at hz
        refine ⟨cv, pv, hcv, by simpa using hpv, ?_⟩
        by_cases hilast : i + 1 < cvs.length
        · have h1 : (setLastGreater (pvRest.getLastD pv0)
              (modifyHeadLesser pv0 (q0 :: qRest)))[i]? =
              (modifyHeadLesser pv0 (q0 :: qRest))[i]? :=
            setLastGreater_getElem?_lt _ _ i (by rw [hmodlen]; omega)
          cases i with
          | zero =>
            have hq0 : q0 = { value := cv, lesser := pv, equal := pv, greater := pv } := by
              simpa using hz
            subst hq0
            refine ⟨{ value := cv, lesser := pv0, equal := pv, greater := pv }, ?_, rfl, rfl,
              ?_, fun _ => rfl⟩
            · rw [h1]
              simp [modifyHeadLesser]
            · intro h; omega
          | succ j =>
            have h2 : (modifyHeadLesser pv0 (q0 :: qRest))[j + 1]? = (q0 :: qRest)[j + 1]? :=
              modifyHeadLesser_getElem?_succ pv0 (q0 :: qRest) j
            refine ⟨{ value := cv, lesser := pv, equal := pv, greater := pv }, ?_, rfl, rfl,
              fun _ => rfl, fun _ => rfl⟩
            rw [h1, h2, hz]
        · -- i is the last index
          have hieq : i = cvs.length - 1 := by omega
          have hlast := setLastGreater_getElem?_last (pvRest.getLastD pv0)
            (modifyHeadLesser pv0 (q0 :: qRest)) hmodne
          rw [hmodlen, ← hieq] at hlast
          cases i with
          | zero =>
            have hq0 : q0 = { value := cv, lesser := pv, equal := pv, greater := pv } := by
              simpa using hz
            subst hq0
            have hm0 : (modifyHeadLesser pv0
                ({ value := cv, lesser := pv, equal := pv, greater := pv } :: qRest))[0]? =
                some { value := cv, lesser := pv0, equal := pv, greater := pv } := by
              simp [modifyHeadLesser]
            refine ⟨{ value := cv, lesser := pv0, equal := pv, greater := pvRest.getLastD pv0 },
              ?_, rfl, rfl, ?_, ?_⟩
            · rw [hlast, hm0]
              rfl
            · intro h; omega
            · intro h; exact absurd h hilast
          | succ j =>
            have h2 : (modifyHeadLesser pv0 (q0 :: qRest))[j + 1]? = (q0 :: qRest)[j + 1]? :=
              modifyHeadLesser_getElem?_succ pv0 (q0 :: qRest) j
            refine ⟨{ value := cv, lesser := pv, equal := pv, greater := pvRest.getLastD pv0 },
              ?_, rfl, rfl, fun _ => rfl, ?_⟩
            · rw [hlast, h2, hz]
              rfl
            · intro h; exact absurd h hilast
      · -- first waypoint's lesser is the first property value
        cases qRest with
        | nil =>
          refine ⟨pv0, { value := q0.value, lesser := pv0, equal := q0.equal, greater := pvRest.getLastD pv0 },
            by simp, ?_, rfl⟩
          simp [modifyHeadLesser, setLastGreater]
        | cons q1 qs =>
          refine ⟨pv0, { value := q0.value, lesser := pv0, equal := q0.equal, greater := q0.greater },
            by simp, ?_, rfl⟩
          simp [modifyHeadLesser, setLastGreater]
      · -- last waypoint's greater is the last property value
        have hlast := setLastGreater_getElem?_last (pvRest.getLastD pv0)
          (modifyHeadLesser pv0 (q0 :: qRest)) hmodne
        rw [hmodlen] at hlast
        have hmem : cvs.length - 1 < (modifyHeadLesser pv0 (q0 :: qRest)).length := by
          rw [hmodlen]; omega
        obtain ⟨wbase, hwbase⟩ : ∃ w, (modifyHeadLesser pv0 (q0 :: qRest))[cvs.length - 1]? =
            some w := ⟨_, List.getElem?_eq_getElem hmem⟩
        have hpvL : (pv0 :: pvRest)[(pv0 :: pvRest).length - 1]? =
            some (pvRest.getLastD pv0) := by
          rw [getLastD_getElem? pv0 (pv0 :: pvRest) (by simp), List.getLastD_cons]
        refine ⟨pvRest.getLastD pv0, { wbase with greater := pvRest.getLastD pv0 },
          hpvL, ?_, rfl⟩
        rw [hlast, hwbase]
        rfl

/-- Witness for the amended C2 at a concrete input. -/
theorem C2_continuous_plus_two_witness :
    mappingTypeName "c" = "continuous" ∧
    (["#A", "#B", "#C", "#D"] : List String).length = ([1, 2] : List Int).length + 2 ∧
    ∃ doc, map_visual_property envA "node fill color" "score" "c" ([1, 2] : List Int)
        ["#A", "#B", "#C", "#D"] = Except.ok doc ∧
      ∃ pts, doc.points = some pts ∧ pts.length = ([1, 2] : List Int).length ∧
        (∀ i, i < ([1, 2] : List Int).length →
          ∃ cv pv, ([1, 2] : List Int)[i]? = some cv ∧
            (["#A", "#B", "#C", "#D"] : List String)[i + 1]? = some pv ∧
            ∃ w, pts[i]? = some w ∧ w.value = cv ∧ w.equal = pv ∧
              (0 < i → w.lesser = pv) ∧ (i + 1 < ([1, 2] : List Int).length → w.greater = pv)) ∧
        (∃ pv0 w0, (["#A", "#B", "#C", "#D"] : List String)[0]? = some pv0 ∧
          pts[0]? = some w0 ∧ w0.lesser = pv0) ∧
        (∃ pvL wL, (["#A", "#B", "#C", "#D"] : List String)[
            (["#A", "#B", "#C", "#D"] : List String).length - 1]? = some pvL ∧
          pts[([1, 2] : List Int).length - 1]? = some wL ∧ wL.greater = pvL) :=
  ⟨rfl, rfl, C2_continuous_plus_two envA "node fill color" "score" "c" [1, 2]
    ["#A", "#B", "#C", "#D"] "Double" rfl rfl (by decide) (by decide) (by decide)⟩

/-- C3: for every continuous-kind build whose length difference is neither 0
nor 2, the build produces no mapping document, and (when the schema checks
pass) fails precisely with the mismatched-lengths construction error. -/
theorem C3_continuous_length_mismatch {κ ρ : Type} (env : Env) (vp tc mt : String)
    (cvs : List κ) (pvs : List ρ)
    (hmt : mappingTypeName mt = "continuous")
    (h0 : pvs.length ≠ cvs.length) (h2 : pvs.length ≠ cvs.length + 2) :
    (∀ doc, map_visual_property env vp tc mt cvs pvs ≠ Except.ok doc) ∧
    (normalizeVisualProp vp ∈ env.visualPropertyNames →
      ∀ t, lookupColumnType
          (env.tableColumns ("default" ++ propCategory (normalizeVisualProp vp))) tc = some t →
        map_visual_property env vp tc mt cvs pvs = Except.error CyErr.mismatchedLengths) := by
  have hd2 : ¬ ((pvs.length : Int) - (cvs.length : Int) = 2) := by omega
  have hd0 : ¬ ((pvs.length : Int) - (cvs.length : Int) = 0) := by omega
  have hvalid : ∀ t, normalizeVisualProp vp ∈ env.visualPropertyNames →
      lookupColumnType
        (env.tableColumns ("default" ++ propCategory (normalizeVisualProp vp))) tc = some t →
      map_visual_property env vp tc mt cvs pvs = Except.error CyErr.mismatchedLengths := by
    intro t hvp hcol
    have hnotin : ¬ normalizeVisualProp vp ∉ env.visualPropertyNames := by simpa using hvp
    simp only [map_visual_property]
    rw [if_neg hnotin, hcol]
    simp only [hmt, reduceIte]
    rw [if_neg hd2, if_neg hd0]
    rfl
  constructor
  · intro doc hok
    by_cases h1 : normalizeVisualProp vp ∉ env.visualPropertyNames
    · simp only [map_visual_property] at hok
      rw [if_pos h1] at hok
      simp at hok
    · cases hcolv : lookupColumnType
          (env.tableColumns ("default" ++ propCategory (normalizeVisualProp vp))) tc with
      | none =>
        simp only [map_visual_property] at hok
        rw [if_neg h1, hcolv] at hok
        simp at hok
      | some t =>
        rw [hvalid t (by simpa using h1) hcolv] at hok
        simp at hok
  · intro hvp t hcol
    exact hvalid t hvp hcol

/-- Witness for C3 at a concrete input. -/
theorem C3_continuous_length_mismatch_witness :
    mappingTypeName "c" = "continuous" ∧
    (["#A", "#B"] : List String).length ≠ ([1] : List Int).length ∧
    (["#A", "#B"] : List String).length ≠ ([1] : List Int).length + 2 ∧
    ((∀ doc, map_visual_property envA "node size" "score" "c" ([1] : List Int) ["#A", "#B"] ≠
        Except.ok doc) ∧
      (normalizeVisualProp "node size" ∈ envA.visualPropertyNames →
        ∀ t, lookupColumnType
            (envA.tableColumns
              ("default" ++ propCategory (normalizeVisualProp "node size"))) "score" = some t →
          map_visual_property envA "node size" "score" "c" ([1] : List Int) ["#A", "#B"] =
            Except.error CyErr.mismatchedLengths)) :=
  ⟨rfl, by decide, by decide,
    C3_continuous_length_mismatch envA "node size" "score" "c" [1] ["#A", "#B"]
      rfl (by decide) (by decide)⟩

/-- C4: for every discrete-kind build (with the schema checks passing), the
map payload pairs the i-th column value with the i-th property value for
every i below the shorter input's length, in input order; no error is raised
when the lengths differ — the extra entries are silently dropped. -/
theorem C4_discrete_pairs {κ ρ : Type} (env : Env) (vp tc mt : String)
    (cvs : List κ) (pvs : List ρ) (t : String)
    (hmt : mappingTypeName mt = "discrete")
    (hvp : normalizeVisualProp vp ∈ env.visualPropertyNames)
    (hcol : lookupColumnType
      (env.tableColumns ("default" ++ propCategory (normalizeVisualProp vp))) tc = some t) :
    ∃ doc, map_visual_property env vp tc mt cvs pvs = Except.ok doc ∧
      ∃ m, doc.map = some m ∧ m.length = min cvs.length pvs.length ∧
        ∀ i, i < min cvs.length pvs.length →
          ∃ cv pv, cvs[i]? = some cv ∧ pvs[i]? = some pv ∧
            m[i]? = some { key := cv, value := pv } := by
  have hnotin : ¬ normalizeVisualProp vp ∉ env.visualPropertyNames := by simpa using hvp
  simp only [map_visual_property]
  rw [if_neg hnotin, hcol]
  simp only [hmt, reduceIte]
  refine ⟨_, rfl, _, rfl, ?_, ?_⟩
  · rw [List.length_zipWith]
  · intro i hi
    obtain ⟨cv, pv, h1, h2, h3⟩ := zipWith_getElem?_of_lt
      (fun cv pv => ({ key := cv, value := pv } : KeyValue κ ρ)) cvs pvs i (by omega) (by omega)
    exact ⟨cv, pv, h1, h2, h3⟩

/-- Witness for C4 at a concrete input with lists of unequal length. -/
theorem C4_discrete_pairs_witness :
    mappingTypeName "d" = "discrete" ∧
    ∃ doc, map_visual_property envA "node shape" "degree" "d" ([1, 2, 3] : List Int)
        ["ellipse", "rectangle"] = Except.ok doc ∧
      ∃ m, doc.map = some m ∧
        m.length = min ([1, 2, 3] : List Int).length (["ellipse", "rectangle"] : List String).length ∧
        ∀ i, i < min ([1, 2, 3] : List Int).length (["ellipse", "rectangle"] : List String).length →
          ∃ cv pv, ([1, 2, 3] : List Int)[i]? = some cv ∧
            (["ellipse", "rectangle"] : List String)[i]? = some pv ∧
            m[i]? = some { key := cv, value := pv } :=
  ⟨rfl, C4_discrete_pairs envA "node shape" "degree" "d" [1, 2, 3] ["ellipse", "rectangle"]
    "Integer" rfl (by decide) (by decide)⟩

/-- Schema-validation errors: unknown visual property or unknown column. -/
def CyErr.isSchemaViolation : CyErr → Bool
  | CyErr.unknownVisualProperty _ => true
  | CyErr.unknownColumn _ _ => true
  | _ => false

/-- C5: the build raises a schema-validation error exactly when the
normalized property name is absent from the visual-property name set or the
column is absent from the backing table selected by the property's prefix;
when both are present no validation error is raised, and a produced document
stores the column's declared type as mappingColumnType. -/
theorem C5_validation {κ ρ : Type} (env : Env) (vp tc mt : String)
    (cvs : List κ) (pvs : List ρ) :
    ((∃ e, map_visual_property env vp tc mt cvs pvs = Except.error e ∧
        e.isSchemaViolation = true) ↔
      (normalizeVisualProp vp ∉ env.visualPropertyNames ∨
        lookupColumnType
          (env.tableColumns ("default" ++ propCategory (normalizeVisualProp vp))) tc = none)) ∧
    (∀ t, lookupColumnType
        (env.tableColumns ("default" ++ propCategory (normalizeVisualProp vp))) tc = some t →
      ∀ doc, map_visual_property env vp tc mt cvs pvs = Except.ok doc →
        doc.mappingColumnType = t) := by
  constructor
  · constructor
    · rintro ⟨e, he, hv⟩
      by_cases h1 : normalizeVisualProp vp ∉ env.visualPropertyNames
      · exact Or.inl h1
      · right
        cases hcol : lookupColumnType
            (env.tableColumns ("default" ++ propCategory (normalizeVisualProp vp))) tc with
        | none => rfl
        | some t =>
          exfalso
          simp only [map_visual_property] at he
          rw [if_neg h1] at he
          split at he
          · rename_i heq
            rw [hcol] at heq
            cases heq
          · split at he
            · simp at he
            · split at he
              · split at he
                · split at he
                  · injection he with h
                    subst h
                    simp [CyErr.isSchemaViolation] at hv
                  · split at he
                    · injection he with h
                      subst h
                      simp [CyErr.isSchemaViolation] at hv
                    · simp at he
                · split at he
                  · simp at he
                  · injection he with h
                    subst h
                    simp [CyErr.isSchemaViolation] at hv
              · simp at he
    · intro h
      by_cases h1 : normalizeVisualProp vp ∉ env.visualPropertyNames
      · refine ⟨CyErr.unknownVisualProperty (normalizeVisualProp vp), ?_, rfl⟩
        simp only [map_visual_property]
        rw [if_pos h1]
      · cases h with
        | inl hl => exact absurd hl h1
        | inr hr =>
          refine ⟨CyErr.unknownColumn tc
            ("default" ++ propCategory (normalizeVisualProp vp)), ?_, rfl⟩
          simp only [map_visual_property]
          rw [if_neg h1, hr]
  · intro t hcol doc hok
    by_cases h1 : normalizeVisualProp vp ∉ env.visualPropertyNames
    · simp only [map_visual_property] at hok
      rw [if_pos h1] at hok
      simp at hok
    · simp only [map_visual_property] at hok
      rw [if_neg h1] at hok
      split at hok
      · simp at hok
      · rename_i t2 heq
        have ht : t2 = t := by
          rw [hcol] at heq
          injection heq with h
          exact h.symm
        subst ht
        split at hok
        · injection hok with h
          rw [← h]
        · split at hok
          · split at hok
            · split at hok
              · simp at hok
              · split at hok
                · simp at hok
                · injection hok with h
                  rw [← h]
            · split at hok
              · injection hok with h
                rw [← h]
              · simp at hok
          · injection hok with h
            rw [← h]

/-- Witness for C5: an absent property name yields a schema-validation error,
and a valid build records the column's declared type. -/
theorem C5_validation_witness :
    (∃ e, map_visual_property envA "bogus prop" "score" "c" ([] : List Int) ([] : List String) =
        Except.error e ∧ e.isSchemaViolation = true) ∧
    (∀ doc, map_visual_property envA "node shape" "degree" "d" ([1] : List Int) ["ellipse"] =
        Except.ok doc → doc.mappingColumnType = "Integer") :=
  ⟨(C5_validation envA "bogus prop" "score" "c" [] []).1.mpr (Or.inl (by decide)),
    (C5_validation envA "node shape" "degree" "d" [1] ["ellipse"]).2 "Integer" (by decide)⟩

/-- C10: a mapping-type string that is none of the recognized shortcodes or
names is not rejected: it is copied verbatim into mappingType and, matching
neither discrete nor continuous, yields a document carrying no map and no
points payload. -/
theorem C10_unknown_mapping_type {κ ρ : Type} (env : Env) (vp tc mt : String)
    (cvs : List κ) (pvs : List ρ) (t : String)
    (hmt : mt ∉ ["c", "d", "p", "continuous", "discrete", "passthrough"])
    (hvp : normalizeVisualProp vp ∈ env.visualPropertyNames)
    (hcol : lookupColumnType
      (env.tableColumns ("default" ++ propCategory (normalizeVisualProp vp))) tc = some t) :
    ∃ doc, map_visual_property env vp tc mt cvs pvs = Except.ok doc ∧
      doc.mappingType = mt ∧ doc.map = none ∧ doc.points = none := by
  have hc : (mt == "c") = false := beq_eq_false_iff_ne.mpr (by intro h; exact hmt (by simp [h]))
  have hd : (mt == "d") = false := beq_eq_false_iff_ne.mpr (by intro h; exact hmt (by simp [h]))
  have hp : (mt == "p") = false := beq_eq_false_iff_ne.mpr (by intro h; exact hmt (by simp [h]))
  have hname : mappingTypeName mt = mt := by
    simp [mappingTypeName, MAPPING_TYPES, List.lookup, hc, hd, hp]
  have hnotdisc : ¬ (mt = "discrete") := by intro h; exact hmt (by simp [h])
  have hnotcont : ¬ (mt = "continuous") := by intro h; exact hmt (by simp [h])
  have hnotin : ¬ normalizeVisualProp vp ∉ env.visualPropertyNames := by simpa using hvp
  simp only [map_visual_property]
  rw [if_neg hnotin, hcol]
  simp only [hname]
  rw [if_neg hnotdisc, if_neg hnotcont]
  exact ⟨_, rfl, rfl, rfl, rfl⟩

/-- Witness for C10 at a concrete unrecognized mapping-type string. -/
theorem C10_unknown_mapping_type_witness :
    ("fancy" ∉ ["c", "d", "p", "continuous", "discrete", "passthrough"]) ∧
    ∃ doc, map_visual_property envA "node shape" "degree" "fancy" ([1] : List Int) ["ellipse"] =
        Except.ok doc ∧ doc.mappingType = "fancy" ∧ doc.map = none ∧ doc.points = none :=
  ⟨by decide, C10_unknown_mapping_type envA "node shape" "degree" "fancy" [1] ["ellipse"]
    "Integer" (by decide) (by decide) (by decide)⟩

/-- A concrete mapping document and style store for the applier witnesses. -/
def mapA : VisualPropMap Int String :=
  { mappingType := "passthrough", mappingColumn := "name", mappingColumnType := "String",
    visualProperty := "NODE_LABEL", map := none, points := none }

def storeA : StyleStore Int String :=
  { mappings := fun s => if s = "galStyle" then [mapA] else [] }

/-- C6: applying a mapping document to a style issues exactly one write — a
replace-in-place PUT to that property's mapping endpoint when the document's
property already appears in the style's current mapping list, and an add-new
POST to the style's mappings collection otherwise. -/
theorem C6_update_create_or_replace {κ ρ : Type} [DecidableEq κ] [DecidableEq ρ]
    (store : StyleStore κ ρ) (styleName : String) (mapping : VisualPropMap κ ρ) :
    ((update_style_mapping store styleName mapping).2.length = 1) ∧
    (mapping.visualProperty ∈
        ((store.mappings styleName).map fun prop => prop.visualProperty) →
      (update_style_mapping store styleName mapping).2 =
        [Write.put styleName mapping.visualProperty [mapping]]) ∧
    (mapping.visualProperty ∉
        ((store.mappings styleName).map fun prop => prop.visualProperty) →
      (update_style_mapping store styleName mapping).2 =
        [Write.post styleName [mapping]]) := by
  refine ⟨?_, ?_, ?_⟩
  · simp only [update_style_mapping]
    split <;> rfl
  · intro hmem
    simp only [update_style_mapping]
    rw [if_pos hmem]
  · intro hmem
    simp only [update_style_mapping]
    rw [if_neg hmem]

/-- Witness for C6: a PUT when the property is mapped, a POST otherwise. -/
theorem C6_update_create_or_replace_witness :
    (mapA.visualProperty ∈
      ((storeA.mappings "galStyle").map fun prop => prop.visualProperty)) ∧
    (update_style_mapping storeA "galStyle" mapA).2 =
      [Write.put "galStyle" mapA.visualProperty [mapA]] ∧
    (mapA.visualProperty ∉
      ((storeA.mappings "default").map fun prop => prop.visualProperty)) ∧
    (update_style_mapping storeA "default" mapA).2 = [Write.post "default" [mapA]] :=
  ⟨by decide, (C6_update_create_or_replace storeA "galStyle" mapA).2.1 (by decide),
    by decide, (C6_update_create_or_replace storeA "default" mapA).2.2 (by decide)⟩

/-- C7: deleting a mapping whose visual property is not in the style's
current mapping list returns the absence signal (None) without raising and
without issuing any delete write, leaving the store unchanged — so deleting
the same absent property twice returns the same absence signal both times. -/
theorem C7_delete_absent {κ ρ : Type} (store : StyleStore κ ρ) (styleName visualProp : String)
    (habs : visualProp ∉ ((store.mappings styleName).map fun prop => prop.visualProperty)) :
    (delete_style_mapping store styleName visualProp).result = none ∧
    (delete_style_mapping store styleName visualProp).writes = [] ∧
    (delete_style_mapping store styleName visualProp).store1 = store ∧
    (delete_style_mapping
      (delete_style_mapping store styleName visualProp).store1 styleName visualProp).result =
        none := by
  have h1 : delete_style_mapping store styleName visualProp =
      { result := none, writes := [], store1 := store } := by
    simp only [delete_style_mapping]
    rw [if_neg habs]
  refine ⟨by rw [h1], by rw [h1], by rw [h1], ?_⟩
  have h2 : (delete_style_mapping store styleName visualProp).store1 = store := by rw [h1]
  rw [h2, h1]

/-- Witness for C7 at a concrete absent property. -/
theorem C7_delete_absent_witness :
    ("EDGE_WIDTH" ∉ ((storeA.mappings "galStyle").map fun prop => prop.visualProperty)) ∧
    ((delete_style_mapping storeA "galStyle" "EDGE_WIDTH").result = none ∧
      (delete_style_mapping storeA "galStyle" "EDGE_WIDTH").writes = [] ∧
      (delete_style_mapping storeA "galStyle" "EDGE_WIDTH").store1 = storeA ∧
      (delete_style_mapping
        (delete_style_mapping storeA "galStyle" "EDGE_WIDTH").store1 "galStyle"
          "EDGE_WIDTH").result = none) :=
  ⟨by decide, C7_delete_absent storeA "galStyle" "EDGE_WIDTH" (by decide)⟩

/-- C8 counterexample: a combined-opacity call that passes validation (the
column exists, every opacity is in range) but whose first sub-operation
raises — here through mismatched continuous lengths — never attempts the
border and label sub-operations, contradicting the claim that later
sub-operations are still attempted after an earlier failure. -/
theorem C8_early_failure_counterexample :
    (set_node_combo_opacity_mapping envA storeEmpty "score" ([1] : List Int)
      [50, 100, 150, 200] "c" none "default").attempts = ["NODE_TRANSPARENCY"] ∧
    (set_node_combo_opacity_mapping envA storeEmpty "score" ([1] : List Int)
      [50, 100, 150, 200] "c" none "default").result =
      Except.error CyErr.mismatchedLengths := by
  decide

/-- C8 (amended): when a combined-opacity call passes validation, the three
transparency sub-operations run in order; each later one is attempted exactly
when the earlier ones did not raise, a raised error aborts the remaining
ones, and the returned value is solely the final (label) sub-operation's
result — the first two sub-results are discarded. -/
theorem C8_combo_fanout {κ : Type} [DecidableEq κ] (env : Env) (store : StyleStore κ String)
    (tc : String) (cvs : List κ) (ops : List Int) (mt : String) (dOp : Option Int)
    (sn : String) (dw : List (String × String))
    (hcol : table_column_exists env tc = true)
    (hops : ops.any (fun o => decide (o < 0) || decide (255 < o)) = false)
    (hdw : comboDefaultWrites dOp = some dw) :
    (∀ e, _update_style_mapping env store "NODE_TRANSPARENCY" tc cvs ops mt sn
        ["c", "d", "p"] = Except.error e →
      set_node_combo_opacity_mapping env store tc cvs ops mt dOp sn =
        { result := Except.error e, attempts := ["NODE_TRANSPARENCY"], writes := [],
          defaultWrites := dw }) ∧
    (∀ u1, _update_style_mapping env store "NODE_TRANSPARENCY" tc cvs ops mt sn
        ["c", "d", "p"] = Except.ok u1 →
      (∀ e, _update_style_mapping env (applyWrites store u1.writes)
          "NODE_BORDER_TRANSPARENCY" tc cvs ops mt sn ["c", "d", "p"] = Except.error e →
        set_node_combo_opacity_mapping env store tc cvs ops mt dOp sn =
          { result := Except.error e,
            attempts := ["NODE_TRANSPARENCY", "NODE_BORDER_TRANSPARENCY"],
            writes := u1.writes, defaultWrites := dw }) ∧
      (∀ u2, _update_style_mapping env (applyWrites store u1.writes)
          "NODE_BORDER_TRANSPARENCY" tc cvs ops mt sn ["c", "d", "p"] = Except.ok u2 →
        (∀ e, _update_style_mapping env (applyWrites (applyWrites store u1.writes) u2.writes)
            "NODE_LABEL_TRANSPARENCY" tc cvs ops mt sn ["c", "d", "p"] = Except.error e →
          set_node_combo_opacity_mapping env store tc cvs ops mt dOp sn =
            { result := Except.error e,
              attempts := ["NODE_TRANSPARENCY", "NODE_BORDER_TRANSPARENCY",
                "NODE_LABEL_TRANSPARENCY"],
              writes := u1.writes ++ u2.writes, defaultWrites := dw }) ∧
        (∀ u3, _update_style_mapping env (applyWrites (applyWrites store u1.writes) u2.writes)
            "NODE_LABEL_TRANSPARENCY" tc cvs ops mt sn ["c", "d", "p"] = Except.ok u3 →
          set_node_combo_opacity_mapping env store tc cvs ops mt dOp sn =
            { result := Except.ok u3.res,
              attempts := ["NODE_TRANSPARENCY", "NODE_BORDER_TRANSPARENCY",
                "NODE_LABEL_TRANSPARENCY"],
              writes := u1.writes ++ u2.writes ++ u3.writes, defaultWrites := dw }))) := by
  have hnotany : ¬ (ops.any (fun o => decide (o < 0) || decide (255 < o)) = true) := by
    simp [hops]
  simp only [set_node_combo_opacity_mapping]
  rw [if_neg (not_not_intro hcol), if_neg hnotany, hdw]
  refine ⟨?_, ?_⟩
  · intro e he
    simp only [he]
  · intro u1 h1
    simp only [h1]
    refine ⟨?_, ?_⟩
    · intro e he
      simp only [he]
    · intro u2 h2
      simp only [h2]
      refine ⟨?_, ?_⟩
      · intro e he
        simp only [he]
      · intro u3 h3
        simp only [h3]

/-- Witness for the amended C8: a fully successful combined-opacity call
attempts all three transparency properties and returns the label
sub-operation's acknowledgment. -/
theorem C8_combo_fanout_witness :
    (table_column_exists envA "score" = true) ∧
    (set_node_combo_opacity_mapping envA storeEmpty "score" ([1] : List Int) [50] "c" none
      "default").attempts =
      ["NODE_TRANSPARENCY", "NODE_BORDER_TRANSPARENCY", "NODE_LABEL_TRANSPARENCY"] ∧
    (set_node_combo_opacity_mapping envA storeEmpty "score" ([1] : List Int) [50] "c" none
      "default").result = Except.ok (some "") := by
  have h := C8_combo_fanout envA storeEmpty "score" ([1] : List Int) [50] "c" none "default"
    [] (by decide) (by decide) rfl
  have h3 := ((h.2 _ rfl).2 _ rfl).2 _ rfl
  refine ⟨by decide, ?_, ?_⟩
  · rw [h3]
  · rw [h3]
    rfl

/-- C9 counterexample: when the mapped table column does not exist, the
border-opacity façade raises the column error even though a supplied opacity
is out of range, so it does not return the null result — contradicting the
claim's unconditional phrasing. -/
theorem C9_missing_column_counterexample :
    (set_node_border_opacity_mapping envA storeEmpty "nosuchcol" ([1] : List Int) [300] "c"
      none "default").result = Except.error CyErr.tableColumnMissing := by
  decide

/-- C9 (amended): when the mapped table column exists, a supplied opacity
outside [0, 255] makes the façade return the null result without raising,
without attempting the Builder, and before any mapping write or default
write; a supplied default opacity outside [0, 255] is likewise rejected with
the same null return before any default push. -/
theorem C9_opacity_range {κ : Type} [DecidableEq κ] (env : Env) (store : StyleStore κ String)
    (tc : String) (cvs : List κ) (ops : List Int) (mt : String) (dOp : Option Int)
    (sn : String)
    (hcol : table_column_exists env tc = true) :
    ((∃ o, o ∈ ops ∧ (o < 0 ∨ 255 < o)) →
      set_node_border_opacity_mapping env store tc cvs ops mt dOp sn =
        { result := Except.ok none, attempts := [], writes := [], defaultWrites := [] }) ∧
    (∀ d, dOp = some d → (d < 0 ∨ 255 < d) →
      set_node_border_opacity_mapping env store tc cvs ops mt dOp sn =
        { result := Except.ok none, attempts := [], writes := [], defaultWrites := [] }) := by
  constructor
  · intro hbad
    have hany : ops.any (fun o => decide (o < 0) || decide (255 < o)) = true := by
      rcases hbad with ⟨o, hmem, hlt⟩
      refine List.any_eq_true.mpr ⟨o, hmem, ?_⟩
      rcases hlt with h | h
      · simp [h]
      · simp [h]
    simp only [set_node_border_opacity_mapping]
    rw [if_neg (not_not_intro hcol), if_pos hany]
  · intro d hd hbad
    by_cases hops : ops.any (fun o => decide (o < 0) || decide (255 < o)) = true
    · simp only [set_node_border_opacity_mapping]
      rw [if_neg (not_not_intro hcol), if_pos hops]
    · have hbadb : (decide (d < 0) || decide (255 < d)) = true := by
        rcases hbad with h | h
        · simp [h]
        · simp [h]
      simp only [set_node_border_opacity_mapping, hd]
      rw [if_neg (not_not_intro hcol), if_neg hops, if_pos hbadb]

/-- Witness for the amended C9: an out-of-range opacity with an existing
column yields the null result with no attempts and no writes. -/
theorem C9_opacity_range_witness :
    (table_column_exists envA "score" = true) ∧
    set_node_border_opacity_mapping envA storeEmpty "score" ([1] : List Int) [300] "c" none
      "default" =
      { result := Except.ok none, attempts := [], writes := [], defaultWrites := [] } :=
  ⟨by decide, (C9_opacity_range envA storeEmpty "score" [1] [300] "c" none "default"
    (by decide)).1 ⟨300, by decide, by decide⟩⟩

end Py4Cytoscape
